import Mathlib

/-!
Verification of the circuit-diagram generator (`src/app.py`,
class `CircuitDiagramGenerator`).

The Python code extracts circuit components from free text with
`re.findall` over nine fixed vocabulary patterns, extracts advisory
connections with five two-group patterns, lays the components out on a
horizontal centerline, and renders an SVG element tree.

This file shallowly embeds that pipeline: strings are `List Char`,
Python's regex scanning is modelled by an executable scanner specialised
to the exact pattern shapes appearing in the source (alternations of
case-insensitive literals and a reference-designator form `X\d*`, and
two-group patterns `(\w+) sep1 (\w+) sep2` with greedy backtracking),
and the SVG tree is a flat list of attribute-carrying elements exactly
as built by `generate_svg`.
-/

namespace CircuitApp

/-! ## Regex model: component vocabulary patterns

Each of the nine component patterns in `parse_input` is an alternation
whose alternatives are either a plain literal (matched case-insensitively,
`re.IGNORECASE`) or a reference-designator form: one letter followed by a
greedy run of digits (e.g. `R\d*`). -/

/-- One alternative of a component vocabulary pattern. -/
inductive Alt where
  | lit (s : List Char)
  | refDes (c : Char)
  deriving DecidableEq, Repr

/-- Case-insensitive comparison of two characters, modelling
`re.IGNORECASE` on the ASCII letters occurring in the vocabulary
(Japanese characters are caseless). -/
def charFoldEq (a b : Char) : Bool :=
  a.toLower == b.toLower

/-- Match the literal `pat` case-insensitively at the front of `cs`;
return the consumed text characters (with their original case, as
`re.findall` reports the span of the input) and the rest. -/
def takeLitCI : List Char → List Char → Option (List Char × List Char)
  | [], cs => some ([], cs)
  | _ :: _, [] => none
  | p :: ps, c :: cs =>
    if charFoldEq c p then
      match takeLitCI ps cs with
      | some (m, r) => some (c :: m, r)
      | none => none
    else none

/-- Greedily take a run of digits (`\d*`). -/
def takeDigits : List Char → List Char × List Char
  | [] => ([], [])
  | c :: cs =>
    if c.isDigit then
      let (d, r) := takeDigits cs
      (c :: d, r)
    else ([], c :: cs)

/-- Try to match one alternative at the front of `cs`. -/
def matchAlt : Alt → List Char → Option (List Char × List Char)
  | .lit s, cs => takeLitCI s cs
  | .refDes _, [] => none
  | .refDes ch, c :: cs =>
    if charFoldEq c ch then
      let (d, r) := takeDigits cs
      some (c :: d, r)
    else none

/-- Try the alternatives in order (Python alternation is first-match,
left to right). -/
def tryAlts : List Alt → List Char → Option (List Char × List Char)
  | [], _ => none
  | a :: rest, cs =>
    match matchAlt a cs with
    | some m => some m
    | none => tryAlts rest cs

/-- Scanner for `re.findall` over an alternation pattern: at each
position try the pattern; on success record the matched text and resume
after it, otherwise advance one character.  All alternatives in the
source consume at least one character, so fuel `= length` suffices. -/
def scanAux (alts : List Alt) : Nat → List Char → List (List Char)
  | 0, _ => []
  | _, [] => []
  | fuel + 1, c :: rest =>
    match tryAlts alts (c :: rest) with
    | some (m, r) => m :: scanAux alts fuel r
    | none => scanAux alts fuel rest

/-- Model of `re.findall(pattern, text, re.IGNORECASE)` for a component
vocabulary pattern. -/
def findall (alts : List Alt) (cs : List Char) : List (List Char) :=
  scanAux alts cs.length cs

/-! ## Component kinds and the nine vocabulary patterns -/

/-- The closed set of component kinds (the keys of the `patterns` dict,
plus `generic` for the renderer's fallback branch). -/
inductive Kind where
  | resistor
  | capacitor
  | inductor
  | battery
  | led
  | switch
  | ground
  | voltage_source
  | current_source
  | generic
  deriving DecidableEq, Repr

/-- The nine vocabulary patterns of `parse_input`, in dict order. -/
def componentPatterns : List (Kind × List Alt) :=
  [ (.resistor,       [.lit "抵抗".data, .lit "レジスタ".data, .refDes 'R']),
    (.capacitor,      [.lit "コンデンサ".data, .lit "キャパシタ".data, .refDes 'C']),
    (.inductor,       [.lit "インダクタ".data, .lit "コイル".data, .refDes 'L']),
    (.battery,        [.lit "電池".data, .lit "バッテリー".data, .lit "電源".data]),
    (.led,            [.lit "LED".data, .lit "発光ダイオード".data]),
    (.switch,         [.lit "スイッチ".data, .lit "SW".data]),
    (.ground,         [.lit "グランド".data, .lit "GND".data, .lit "アース".data]),
    (.voltage_source, [.lit "電圧源".data, .refDes 'V']),
    (.current_source, [.lit "電流源".data, .refDes 'I']) ]

/-! ## Regex model: connection patterns

The five connection patterns of `parse_input` all have the shape
`(\w+) sep1 (\w+) sep2` (with `sep2` possibly empty), matched without
`re.IGNORECASE`.  `\w+` is greedy with backtracking: the engine tries the
longest first group first, and for each first group the longest second
group first; the first completion wins.  `\w` is modelled over the
scripts appearing in the vocabulary and the separators: ASCII
alphanumerics and underscore, kana (U+3041–U+30FF, covering ー), and CJK
ideographs (U+4E00–U+9FFF); the separator glyphs `→` and `-` and all
whitespace are non-word, as in Python. -/

/-- Python `\w`, restricted to the relevant scripts. -/
def isWordChar (c : Char) : Bool :=
  c == '_' || c.isAlphanum ||
  (0x3041 ≤ c.toNat && c.toNat ≤ 0x30FF) ||
  (0x4E00 ≤ c.toNat && c.toNat ≤ 0x9FFF)

/-- Maximal prefix of word characters and the remainder. -/
def takeWordRun : List Char → List Char × List Char
  | [] => ([], [])
  | c :: cs =>
    if isWordChar c then
      let (w, r) := takeWordRun cs
      (c :: w, r)
    else ([], c :: cs)

/-- Strip an exact (case-sensitive) literal from the front. -/
def takeLit : List Char → List Char → Option (List Char)
  | [], cs => some cs
  | _ :: _, [] => none
  | p :: ps, c :: cs => if c == p then takeLit ps cs else none

/-- Try `f n`, `f (n-1)`, …, `f 1` and return the first success:
greedy backtracking of a `\w+` group whose maximal extent is `n`. -/
def firstSome (f : Nat → Option α) : Nat → Option α
  | 0 => none
  | n + 1 =>
    match f (n + 1) with
    | some x => some x
    | none => firstSome f n

/-- Match `(\w+) sep1 (\w+) sep2` at the front of `cs`, returning the
two captured groups and the remainder after the whole match. -/
def matchConn (sep1 sep2 : List Char) (cs : List Char) :
    Option ((List Char × List Char) × List Char) :=
  let (run1, rest1) := takeWordRun cs
  firstSome (fun k =>
    let g1 := run1.take k
    match takeLit sep1 (run1.drop k ++ rest1) with
    | none => none
    | some afterSep1 =>
      let (run2, rest2) := takeWordRun afterSep1
      firstSome (fun j =>
        let g2 := run2.take j
        match takeLit sep2 (run2.drop j ++ rest2) with
        | none => none
        | some afterAll => some ((g1, g2), afterAll)) run2.length)
    run1.length

/-- The `re.findall` scanner for a two-group connection pattern.  Every
match consumes at least one character (the first group is nonempty), so
fuel `= length` suffices. -/
def scanConnAux (sep1 sep2 : List Char) : Nat → List Char → List (List Char × List Char)
  | 0, _ => []
  | _, [] => []
  | fuel + 1, c :: rest =>
    match matchConn sep1 sep2 (c :: rest) with
    | some (g, r) => g :: scanConnAux sep1 sep2 fuel r
    | none => scanConnAux sep1 sep2 fuel rest

/-- Model of `re.findall(pattern, text)` for a connection pattern. -/
def findallConn (sep1 sep2 : List Char) (cs : List Char) : List (List Char × List Char) :=
  scanConnAux sep1 sep2 cs.length cs

/-- The five connection patterns of `parse_input`, in list order, each
given by its two literal separators. -/
def connectionPatterns : List (List Char × List Char) :=
  [ ("と".data, "を接続".data),
    ("から".data, "へ".data),
    ("→".data, [] ),
    ("-".data, [] ),
    ("に".data, "を繋ぐ".data) ]

/-! ## Data model and extraction -/

/-- One schematic element, as the Python dict
`{'type': …, 'name': …, 'x': …, 'y': …}`. -/
structure Component where
  kind : Kind
  name : String
  x : Int
  y : Int
  deriving DecidableEq, Repr

/-- An advisory connection, as the Python dict `{'from': …, 'to': …}`. -/
structure Connection where
  fromName : String
  toName : String
  deriving DecidableEq, Repr

/-- The per-request state after `parse_input`: ordered components plus
advisory connections. -/
structure Circuit where
  components : List Component
  connections : List Connection
  deriving DecidableEq, Repr

/-- The canonical fallback circuit substituted by `parse_input` when no
vocabulary matched (positions as written before layout overwrites them). -/
def fallbackComponents : List Component :=
  [ ⟨.battery, "電池", 100, 200⟩,
    ⟨.resistor, "抵抗", 300, 200⟩,
    ⟨.led, "LED", 500, 200⟩ ]

/-- Step 1 of `parse_input`: for each kind in dict order, every
`re.findall` match appends one component with the matched text as name
and zero coordinates. -/
def extractComponents (text : String) : List Component :=
  (componentPatterns.map (fun p =>
    (findall p.2 text.data).map (fun m => Component.mk p.1 (String.mk m) 0 0))).flatten

/-- Step 3 of `parse_input`: every connection-pattern match appends one
connection; no cross-validation against component names. -/
def extractConnections (text : String) : List Connection :=
  (connectionPatterns.map (fun p =>
    (findallConn p.1 p.2 text.data).map (fun g =>
      Connection.mk (String.mk g.1) (String.mk g.2)))).flatten

/-- Constant `self.svg_width` of the generator. -/
def svg_width : Nat := 800

def svg_height : Nat := 600

/-- The loop body of `_calculate_positions`: `enumerate` with running
index `i`, assigning `x = spacing * (i + 1)`, `y = svg_height // 2`. -/
def assignPositions (spacing : Nat) (i : Nat) : List Component → List Component
  | [] => []
  | c :: rest =>
    { c with x := (spacing * (i + 1) : Nat), y := (svg_height / 2 : Nat) }
      :: assignPositions spacing (i + 1) rest

/-- Embedding of `_calculate_positions`: horizontal layout with
`spacing = svg_width // (len(components) + 1)` on the canvas centerline. -/
def _calculate_positions (comps : List Component) : List Component :=
  if comps.isEmpty then comps
  else assignPositions (svg_width / (comps.length + 1)) 0 comps

/-- Embedding of `parse_input`: extract components, substitute the fallback circuit
if none were found, extract connections, then compute positions. -/
def parse_input (text : String) : Circuit :=
  let comps := extractComponents text
  let comps := if comps.isEmpty then fallbackComponents else comps
  { components := _calculate_positions comps,
    connections := extractConnections text }

/-! ## SVG element model

`generate_svg` builds an `xml.etree.ElementTree` element `<svg>` whose
children are all flat (every `ET.SubElement` call attaches directly to
the root).  An element is its tag, its attributes in insertion order,
and an optional text payload. -/

/-- One flat SVG child element. -/
structure XmlElem where
  tag : String
  attrs : List (String × String)
  textContent : Option String
  deriving DecidableEq, Repr

/-- The root `<svg>` element: document attributes plus flat children. -/
structure SvgDoc where
  attrs : List (String × String)
  children : List XmlElem
  deriving DecidableEq, Repr

/-- A `<line>` with the attribute order used throughout the source
(`x1, y1, x2, y2, stroke, stroke-width`). -/
def lineElemW (x1 y1 x2 y2 : Int) (w : String) : XmlElem :=
  ⟨"line",
    [("x1", toString x1), ("y1", toString y1),
     ("x2", toString x2), ("y2", toString y2),
     ("stroke", "black"), ("stroke-width", w)], none⟩

/-- The common stroke-width-2 black line. -/
def lineElem (x1 y1 x2 y2 : Int) : XmlElem :=
  lineElemW x1 y1 x2 y2 "2"

/-- A `<text>` element (`x, y, text-anchor, font-family, font-size,
fill` then the text payload). -/
def textElem (x y : Int) (fontSize fill content : String) : XmlElem :=
  ⟨"text",
    [("x", toString x), ("y", toString y),
     ("text-anchor", "middle"), ("font-family", "Arial"),
     ("font-size", fontSize), ("fill", fill)], some content⟩

/-- A `<path>` element (`d, fill, stroke, stroke-width`). -/
def pathElem (d stroke w : String) : XmlElem :=
  ⟨"path", [("d", d), ("fill", "none"), ("stroke", stroke), ("stroke-width", w)], none⟩

/-- Render an `x,y` coordinate pair as in the Python f-strings. -/
def pt (x y : Int) : String :=
  toString x ++ "," ++ toString y

/-! ## Wiring (`_draw_connections`) -/

/-- The adjacent-pair connecting lines: for each `i`, a line from
`(comps[i].x + 40, comps[i].y)` to `(comps[i+1].x - 40, comps[i+1].y)`. -/
def adjacentLines : List Component → List XmlElem
  | c1 :: c2 :: rest =>
    lineElem (c1.x + 40) c1.y (c2.x - 40) c2.y :: adjacentLines (c2 :: rest)
  | _ => []

/-- The three-segment return path from the last component back to the
first, routed below the centerline; emitted only for more than two
components. -/
def returnPath (comps : List Component) : List XmlElem :=
  if comps.length > 2 then
    match comps.head?, comps.getLast? with
    | some first, some last =>
      [ lineElem last.x (last.y + 20) last.x (last.y + 80),
        lineElem last.x (last.y + 80) first.x (first.y + 80),
        lineElem first.x (first.y + 80) first.x (first.y + 20) ]
    | _, _ => []
  else []

/-- Embedding of `_draw_connections`: nothing for fewer than two components,
otherwise the adjacent lines followed by the (possibly empty) return
path. -/
def _draw_connections (comps : List Component) : List XmlElem :=
  if comps.length < 2 then []
  else adjacentLines comps ++ returnPath comps

/-! ## Icon drawing (`_draw_resistor` … `_draw_generic`) -/

/-- Embedding of `_draw_resistor`: 7-point zigzag polyline, two lead lines, label. -/
def _draw_resistor (x y : Int) (name : String) : List XmlElem :=
  [ ⟨"polyline",
      [("points", String.intercalate " "
          ((List.range 7).map (fun i =>
            pt (x - 30 + i * 10) (y + (if i % 2 = 1 then 10 else -10))))),
       ("fill", "none"), ("stroke", "black"), ("stroke-width", "2")], none⟩,
    lineElem (x - 40) y (x - 30) y,
    lineElem (x + 30) y (x + 40) y,
    textElem x (y - 20) "12" "black" name ]

/-- Embedding of `_draw_capacitor`: two vertical plates, two lead lines, label. -/
def _draw_capacitor (x y : Int) (name : String) : List XmlElem :=
  [ lineElemW (x - 5) (y - 20) (x - 5) (y + 20) "3",
    lineElemW (x + 5) (y - 20) (x + 5) (y + 20) "3",
    lineElem (x - 40) y (x - 5) y,
    lineElem (x + 5) y (x + 40) y,
    textElem x (y - 30) "12" "black" name ]

/-- Embedding of `_draw_inductor`: four arcs, two lead lines, label. -/
def _draw_inductor (x y : Int) (name : String) : List XmlElem :=
  ((List.range 4).map (fun i =>
    let cx := x - 15 + i * 10
    pathElem ("M " ++ toString cx ++ " " ++ toString y ++ " A 5 5 0 0 1 "
        ++ toString (cx + 10) ++ " " ++ toString y) "black" "2")) ++
  [ lineElem (x - 40) y (x - 15) y,
    lineElem (x + 15) y (x + 40) y,
    textElem x (y - 20) "12" "black" name ]

/-- Embedding of `_draw_battery`: long and short plates, two lead lines, polarity
marks, label. -/
def _draw_battery (x y : Int) (name : String) : List XmlElem :=
  [ lineElemW (x + 5) (y - 20) (x + 5) (y + 20) "3",
    lineElemW (x - 5) (y - 10) (x - 5) (y + 10) "3",
    lineElem (x - 40) y (x - 5) y,
    lineElem (x + 5) y (x + 40) y,
    textElem (x + 15) (y + 5) "14" "red" "+",
    textElem (x - 15) (y + 5) "14" "blue" "-",
    textElem x (y - 30) "12" "black" name ]

/-- Embedding of `_draw_led`: triangle, bar, two lead lines, light arrows, label. -/
def _draw_led (x y : Int) (name : String) : List XmlElem :=
  [ ⟨"polygon",
      [("points", pt (x - 15) (y - 10) ++ " " ++ pt (x - 15) (y + 10)
          ++ " " ++ pt (x + 5) y),
       ("fill", "none"), ("stroke", "black"), ("stroke-width", "2")], none⟩,
    lineElem (x + 5) (y - 10) (x + 5) (y + 10),
    lineElem (x - 40) y (x - 15) y,
    lineElem (x + 5) y (x + 40) y,
    pathElem ("M " ++ toString (x + 10) ++ " " ++ toString (y - 15)
        ++ " L " ++ toString (x + 15) ++ " " ++ toString (y - 20)
        ++ " M " ++ toString (x + 12) ++ " " ++ toString (y - 20)
        ++ " L " ++ toString (x + 15) ++ " " ++ toString (y - 20)
        ++ " L " ++ toString (x + 15) ++ " " ++ toString (y - 17)) "orange" "1",
    textElem x (y - 30) "12" "black" name ]

/-- Embedding of `_draw_switch`: two contact dots, diagonal stroke, two lead lines,
label. -/
def _draw_switch (x y : Int) (name : String) : List XmlElem :=
  [ ⟨"circle", [("cx", toString (x - 15)), ("cy", toString y),
                ("r", "2"), ("fill", "black")], none⟩,
    ⟨"circle", [("cx", toString (x + 15)), ("cy", toString y),
                ("r", "2"), ("fill", "black")], none⟩,
    lineElem (x - 15) y (x + 10) (y - 10),
    lineElem (x - 40) y (x - 15) y,
    lineElem (x + 15) y (x + 40) y,
    textElem x (y - 25) "12" "black" name ]

/-- Embedding of `_draw_ground`: vertical stem, three bars, a single left lead line,
label.  Note: unlike every other icon routine, no right-hand lead line
is drawn. -/
def _draw_ground (x y : Int) (name : String) : List XmlElem :=
  [ lineElem x y x (y + 20) ] ++
  (([(20 : Int), 12, 6].enum).map (fun p =>
    lineElem (x - p.2 / 2) (y + 20 + p.1 * 4) (x + p.2 / 2) (y + 20 + p.1 * 4))) ++
  [ lineElem (x - 40) y x y,
    textElem x (y - 10) "12" "black" name ]

/-- Embedding of `_draw_generic`: rectangle body, two lead lines, centered label. -/
def _draw_generic (x y : Int) (name : String) : List XmlElem :=
  [ ⟨"rect", [("x", toString (x - 20)), ("y", toString (y - 15)),
              ("width", "40"), ("height", "30"),
              ("fill", "lightgray"), ("stroke", "black"),
              ("stroke-width", "2")], none⟩,
    lineElem (x - 40) y (x - 20) y,
    lineElem (x + 20) y (x + 40) y,
    textElem x (y + 5) "10" "black" name ]

/-- Embedding of `_draw_component`: dispatch on the component's kind; every kind not
matched by an explicit branch falls through to `_draw_generic`. -/
def _draw_component (c : Component) : List XmlElem :=
  match c.kind with
  | .resistor => _draw_resistor c.x c.y c.name
  | .capacitor => _draw_capacitor c.x c.y c.name
  | .inductor => _draw_inductor c.x c.y c.name
  | .battery => _draw_battery c.x c.y c.name
  | .led => _draw_led c.x c.y c.name
  | .switch => _draw_switch c.x c.y c.name
  | .ground => _draw_ground c.x c.y c.name
  | _ => _draw_generic c.x c.y c.name

/-! ## Document assembly and serialization -/

/-- Embedding of `generate_svg`: root attributes, white background rectangle, wiring,
then the icons in component order.  Only `self.components` is read; the
connection list is never consulted. -/
def generate_svg (circuit : Circuit) : SvgDoc :=
  { attrs := [("width", toString svg_width), ("height", toString svg_height),
              ("xmlns", "http://www.w3.org/2000/svg")],
    children :=
      ⟨"rect", [("width", toString svg_width), ("height", toString svg_height),
                ("fill", "white"), ("stroke", "none")], none⟩
        :: (_draw_connections circuit.components ++
            (circuit.components.map _draw_component).flatten) }

/-- XML escaping of text payloads (`&`, `<`, `>`). -/
def escText (s : String) : String :=
  ((s.replace "&" "&amp;").replace "<" "&lt;").replace ">" "&gt;"

/-- XML escaping of attribute values (text escapes plus `"`). -/
def escAttr (s : String) : String :=
  (escText s).replace "\x22" "&quot;"

/-- Serialize an attribute list as ` k="v" k="v" …`. -/
def attrsToString (attrs : List (String × String)) : String :=
  String.join (attrs.map (fun p => " " ++ p.1 ++ "=\x22" ++ escAttr p.2 ++ "\x22"))

/-- Serialize one child element on its own indented line, as
`minidom.toprettyxml(indent="  ")` renders it (elements with a single
text child are inlined, childless elements self-close). -/
def childToString (e : XmlElem) : String :=
  match e.textContent with
  | none => "  <" ++ e.tag ++ attrsToString e.attrs ++ "/>\n"
  | some t => "  <" ++ e.tag ++ attrsToString e.attrs ++ ">"
      ++ escText t ++ "</" ++ e.tag ++ ">\n"

/-- Embedding of `_prettify_svg`: the result of `ET.tostring` re-indented by
`minidom.toprettyxml(indent="  ")` — an XML declaration, the root
element, one line per child, two-space indentation. -/
def _prettify_svg (doc : SvgDoc) : String :=
  "<?xml version=\x221.0\x22 ?>\n<svg" ++ attrsToString doc.attrs ++ ">\n"
    ++ String.join (doc.children.map childToString)
    ++ "</svg>\n"

/-- The whole pipeline as exercised by the `/generate` route:
`parse_input` then `generate_svg` then `_prettify_svg`. -/
def renderCircuit (text : String) : String :=
  _prettify_svg (generate_svg (parse_input text))

/-! ## Lead-line predicate (for the icon connection-point convention) -/

/-- Read an attribute of an element (first binding wins, as in a dict). -/
def attrVal (e : XmlElem) (k : String) : Option String :=
  (e.attrs.find? (fun p => p.1 == k)).map (fun p => p.2)

/-- Whether `e` is a horizontal line on the centerline `py` with one
endpoint at abscissa `px`. -/
def isLeadAt (px py : Int) (e : XmlElem) : Bool :=
  e.tag == "line" &&
  attrVal e "y1" == some (toString py) &&
  attrVal e "y2" == some (toString py) &&
  (attrVal e "x1" == some (toString px) || attrVal e "x2" == some (toString px))

/-- Whether some element of `es` is such a lead line. -/
def hasLead (es : List XmlElem) (px py : Int) : Bool :=
  es.any (isLeadAt px py)

/-- The example input of the spec: battery, resistor and LED in series,
in Japanese. -/
def exampleInput : String := "電池と抵抗とLEDを直列に接続"

/-! ## Helper lemmas -/

lemma extract_flatten_nil (ps : List (Kind × List Alt)) (cs : List Char)
    (h : ∀ p ∈ ps, findall p.2 cs = []) :
    (ps.map (fun p => (findall p.2 cs).map
      (fun m => Component.mk p.1 (String.mk m) 0 0))).flatten = [] := by
  induction ps with
  | nil => rfl
  | cons p rest ih =>
    simp only [List.map_cons, List.flatten_cons]
    rw [h p (List.mem_cons_self _ _), ih (fun q hq => h q (List.mem_cons_of_mem _ hq))]
    rfl

lemma extract_flatten_single (ps : List (Kind × List Alt)) (cs : List Char)
    (e : Kind × List Alt) (m : List Char)
    (hnd : ps.Nodup) (hmem : e ∈ ps) (hone : findall e.2 cs = [m])
    (hrest : ∀ p ∈ ps, p ≠ e → findall p.2 cs = []) :
    (ps.map (fun p => (findall p.2 cs).map
      (fun mm => Component.mk p.1 (String.mk mm) 0 0))).flatten
      = [Component.mk e.1 (String.mk m) 0 0] := by
  induction ps with
  | nil => cases hmem
  | cons p rest ih =>
    simp only [List.map_cons, List.flatten_cons]
    rcases List.mem_cons.mp hmem with hpe | hm
    · have hnotin : e ∉ rest := by rw [hpe]; exact (List.nodup_cons.mp hnd).1
      rw [← hpe, hone]
      rw [extract_flatten_nil rest cs
        (fun q hq => hrest q (List.mem_cons_of_mem _ hq)
          (fun hqe => hnotin (hqe ▸ hq)))]
      rfl
    · have hpe : p ≠ e := fun hpe => (List.nodup_cons.mp hnd).1 (hpe ▸ hm)
      rw [hrest p (List.mem_cons_self _ _) hpe]
      simpa using ih (List.nodup_cons.mp hnd).2 hm
        (fun q hq hqe => hrest q (List.mem_cons_of_mem _ hq) hqe)

lemma assignPositions_length (s i : Nat) (l : List Component) :
    (assignPositions s i l).length = l.length := by
  induction l generalizing i with
  | nil => rfl
  | cons c rest ih => simp [assignPositions, ih]

lemma assignPositions_getElem? (s : Nat) (l : List Component) (i j : Nat) :
    (assignPositions s i l)[j]? =
      l[j]?.map (fun c =>
        { c with x := (s * (i + j + 1) : Nat), y := (svg_height / 2 : Nat) }) := by
  induction l generalizing i j with
  | nil => simp [assignPositions]
  | cons c rest ih =>
    cases j with
    | zero => simp [assignPositions]
    | succ j =>
      simp only [assignPositions, List.getElem?_cons_succ]
      rw [ih (i + 1) j]
      have h3 : i + 1 + j + 1 = i + (j + 1) + 1 := by omega
      rw [h3]

lemma calculate_positions_length (comps : List Component) :
    (_calculate_positions comps).length = comps.length := by
  unfold _calculate_positions
  split
  · rfl
  · exact assignPositions_length _ _ _

lemma adjacentLines_length (comps : List Component) :
    (adjacentLines comps).length = comps.length - 1 := by
  induction comps with
  | nil => rfl
  | cons c rest ih =>
    cases rest with
    | nil => rfl
    | cons c2 r2 =>
      simp only [adjacentLines, List.length_cons] at ih ⊢
      omega

lemma returnPath_length_of_three (comps : List Component)
    (h : 2 < comps.length) : (returnPath comps).length = 3 := by
  unfold returnPath
  cases comps with
  | nil => simp at h
  | cons c rest =>
    have hlast : (c :: rest).getLast? = some ((c :: rest).getLast (by simp)) :=
      List.getLast?_eq_getLast _ _
    rw [if_pos h]
    simp [hlast]

lemma calculate_positions_cons (c : Component) (rest : List Component) :
    _calculate_positions (c :: rest) =
      assignPositions (svg_width / ((c :: rest).length + 1)) 0 (c :: rest) := rfl

lemma assignPositions_idem (s i : Nat) (l : List Component) :
    assignPositions s i (assignPositions s i l) = assignPositions s i l := by
  induction l generalizing i with
  | nil => rfl
  | cons c rest ih => simp [assignPositions, ih (i + 1)]

lemma calculate_positions_idem (comps : List Component) :
    _calculate_positions (_calculate_positions comps) = _calculate_positions comps := by
  rcases comps with _ | ⟨c, rest⟩
  · rfl
  · rw [calculate_positions_cons]
    cases hres : assignPositions (svg_width / ((c :: rest).length + 1)) 0 (c :: rest) with
    | nil =>
      have := assignPositions_length (svg_width / ((c :: rest).length + 1)) 0 (c :: rest)
      rw [hres] at this
      simp at this
    | cons c2 rest2 =>
      rw [calculate_positions_cons]
      have hlen : (c2 :: rest2).length = (c :: rest).length := by
        rw [← hres, assignPositions_length]
      rw [hlen, ← hres, assignPositions_idem]

/-! ## Claim theorems -/

/-- C1: if none of the nine component vocabulary patterns matches the
input, extraction yields exactly the three-component fallback circuit —
battery, resistor, led, in that order, with the fixed labels 電池, 抵抗,
LED (laid out at x = 200, 400, 600 on the centerline y = 300). -/
theorem c1_no_match_yields_fallback (text : String)
    (h : ∀ p ∈ componentPatterns, findall p.2 text.data = []) :
    (parse_input text).components =
      [ ⟨.battery, "電池", 200, 300⟩,
        ⟨.resistor, "抵抗", 400, 300⟩,
        ⟨.led, "LED", 600, 300⟩ ] := by
  have hex : extractComponents text = [] := extract_flatten_nil _ _ h
  show _calculate_positions
      (if (extractComponents text).isEmpty then fallbackComponents
       else extractComponents text) = _
  rw [hex]
  rfl

/-- Witness for C1: the whitespace-only input `"   "` matches none of
the nine patterns and yields the fallback circuit. -/
theorem c1_no_match_yields_fallback_witness :
    (∀ p ∈ componentPatterns, findall p.2 ("   " : String).data = []) ∧
    (parse_input "   ").components =
      [ ⟨.battery, "電池", 200, 300⟩,
        ⟨.resistor, "抵抗", 400, 300⟩,
        ⟨.led, "LED", 600, 300⟩ ] :=
  ⟨by decide, c1_no_match_yields_fallback "   " (by decide)⟩

/-- C2: for a list of `N ≥ 1` components, layout assigns the component
at (0-indexed) position `i` the coordinates
`x = (800 / (N + 1)) * (i + 1)` (natural-number division) and `y = 300`,
preserves each component's kind and name in order, and is idempotent, so
re-running layout yields identical coordinates. -/
theorem c2_layout_formula (comps : List Component) (i : Nat)
    (hi : i < comps.length) :
    ((_calculate_positions comps)[i]?.map Component.x
        = some (((svg_width / (comps.length + 1)) * (i + 1) : Nat) : Int)) ∧
    ((_calculate_positions comps)[i]?.map Component.y = some 300) ∧
    ((_calculate_positions comps)[i]?.map Component.kind
        = comps[i]?.map Component.kind) ∧
    ((_calculate_positions comps)[i]?.map Component.name
        = comps[i]?.map Component.name) ∧
    _calculate_positions (_calculate_positions comps)
        = _calculate_positions comps := by
  rcases comps with _ | ⟨c, rest⟩
  · simp at hi
  · have hget : (c :: rest)[i]? = some ((c :: rest)[i]) :=
      List.getElem?_eq_getElem hi
    refine ⟨?_, ?_, ?_, ?_, calculate_positions_idem _⟩ <;>
      rw [calculate_positions_cons, assignPositions_getElem?, hget]
    · simp
    · simp [svg_height]
    · rfl
    · rfl

/-- Witness for C2: on the three-component fallback list, the middle
component is placed at x = 400, y = 300, and layout is idempotent. -/
theorem c2_layout_formula_witness :
    ((_calculate_positions fallbackComponents)[1]?.map Component.x
        = some (((svg_width / (fallbackComponents.length + 1)) * 2 : Nat) : Int)) ∧
    ((_calculate_positions fallbackComponents)[1]?.map Component.y = some 300) ∧
    _calculate_positions (_calculate_positions fallbackComponents)
        = _calculate_positions fallbackComponents :=
  ⟨(c2_layout_formula fallbackComponents 1 (by decide)).1,
   (c2_layout_formula fallbackComponents 1 (by decide)).2.1,
   (c2_layout_formula fallbackComponents 1 (by decide)).2.2.2.2⟩

/-- C3: `_draw_connections` emits no wiring for fewer than two
components; for exactly two components it emits exactly one connecting
line and an empty return path; for three or more components it emits the
`N - 1` adjacent connecting lines followed by exactly three return-path
segments. -/
theorem c3_wiring_counts (comps : List Component) :
    (comps.length < 2 → _draw_connections comps = []) ∧
    (comps.length = 2 →
      (_draw_connections comps).length = 1 ∧ returnPath comps = []) ∧
    (3 ≤ comps.length →
      _draw_connections comps = adjacentLines comps ++ returnPath comps ∧
      (adjacentLines comps).length = comps.length - 1 ∧
      (returnPath comps).length = 3) := by
  refine ⟨?_, ?_, ?_⟩
  · intro h
    unfold _draw_connections
    rw [if_pos h]
  · intro h
    have hret : returnPath comps = [] := by
      unfold returnPath
      rw [if_neg (by omega)]
    refine ⟨?_, hret⟩
    unfold _draw_connections
    rw [if_neg (by omega), hret, List.append_nil, adjacentLines_length, h]
  · intro h
    refine ⟨?_, adjacentLines_length comps, returnPath_length_of_three comps (by omega)⟩
    unfold _draw_connections
    rw [if_neg (by omega)]

/-- Witness for C3: the three-component fallback list gets two adjacent
connecting lines plus a three-segment return path. -/
theorem c3_wiring_counts_witness :
    _draw_connections fallbackComponents
        = adjacentLines fallbackComponents ++ returnPath fallbackComponents ∧
    (adjacentLines fallbackComponents).length = fallbackComponents.length - 1 ∧
    (returnPath fallbackComponents).length = 3 :=
  (c3_wiring_counts fallbackComponents).2.2 (by decide)

/-- C4 counterexample: the ground icon routine, drawn at (400, 300),
emits no horizontal line on the centerline with an endpoint at
x + 40 = 440 — only the left lead at x − 40 = 360 exists — so not every
kind's routine honors the two-sided ±40 connection-point convention. -/
theorem c4_counterexample :
    hasLead (_draw_ground 400 300 "GND") 440 300 = false ∧
    hasLead (_draw_ground 400 300 "GND") 360 300 = true := by decide

/-- C4 (amended): every icon routine emits a horizontal lead line on the
component centerline with outer endpoint at x − 40, and every kind
except ground also emits one with outer endpoint at x + 40; the ground
routine draws only the left lead. -/
theorem c4_lead_convention (k : Kind) (x y : Int) (name : String) :
    hasLead (_draw_component ⟨k, name, x, y⟩) (x - 40) y = true ∧
    (k ≠ Kind.ground → hasLead (_draw_component ⟨k, name, x, y⟩) (x + 40) y = true) := by
  cases k <;>
    refine ⟨?_, fun hk => ?_⟩ <;>
    first
      | exact absurd rfl hk
      | simp [_draw_component, _draw_resistor, _draw_capacitor, _draw_inductor,
          _draw_battery, _draw_led, _draw_switch, _draw_ground, _draw_generic,
          hasLead, isLeadAt, attrVal, lineElem, lineElemW, textElem, pathElem]

/-- Witness for C4 (amended): the resistor icon at (400, 300) has lead
lines reaching both 360 and 440. -/
theorem c4_lead_convention_witness :
    hasLead (_draw_component ⟨Kind.resistor, "R1", 400, 300⟩) (400 - 40) 300 = true ∧
    hasLead (_draw_component ⟨Kind.resistor, "R1", 400, 300⟩) (400 + 40) 300 = true :=
  ⟨(c4_lead_convention Kind.resistor 400 300 "R1").1,
   (c4_lead_convention Kind.resistor 400 300 "R1").2 (by decide)⟩

/-- C5: the rendered document depends only on the component list; two
circuits with equal ordered component lists render to byte-identical
serialized output whatever their connection lists are. -/
theorem c5_connections_never_consulted (c1 c2 : Circuit)
    (h : c1.components = c2.components) :
    _prettify_svg (generate_svg c1) = _prettify_svg (generate_svg c2) := by
  unfold generate_svg
  rw [h]

/-- Witness for C5: the fallback components render identically with an
empty and with a nonempty connection list. -/
theorem c5_connections_never_consulted_witness :
    _prettify_svg (generate_svg ⟨fallbackComponents, []⟩) =
      _prettify_svg (generate_svg ⟨fallbackComponents, [⟨"電池", "LED"⟩]⟩) :=
  c5_connections_never_consulted
    ⟨fallbackComponents, []⟩ ⟨fallbackComponents, [⟨"電池", "LED"⟩]⟩ rfl

/-- C6: the core never fails: every input string parses to a circuit
with at least one component (the fallback covers the no-match case), the
resulting document always carries the fixed 800×600 root attributes, and
serialization always produces a nonempty document string. -/
theorem c6_never_fails (text : String) :
    1 ≤ (parse_input text).components.length ∧
    (generate_svg (parse_input text)).attrs =
      [("width", "800"), ("height", "600"),
       ("xmlns", "http://www.w3.org/2000/svg")] ∧
    0 < (renderCircuit text).length := by
  refine ⟨?_, rfl, ?_⟩
  · show 1 ≤ (_calculate_positions
      (if (extractComponents text).isEmpty then fallbackComponents
       else extractComponents text)).length
    rw [calculate_positions_length]
    cases hex : extractComponents text with
    | nil => decide
    | cons c rest => simp
  · unfold renderCircuit _prettify_svg
    simp only [String.length_append]
    have h0 : 0 < ("<?xml version=\x221.0\x22 ?>\n<svg" : String).length := by decide
    omega

/-- C7: rendering is deterministic — serializing the document generated
from the same circuit twice yields byte-identical output; the embedding
of the renderer is a pure function of the circuit with no other inputs. -/
theorem c7_render_deterministic (circuit : Circuit) :
    _prettify_svg (generate_svg circuit) = _prettify_svg (generate_svg circuit) := rfl

/-- C8 counterexample: on the input 電池と抵抗とLEDを直列に接続,
extraction does not yield the kinds battery, resistor, led, and it does
not yield exactly one connection (the bare `L` of `LED` also matches the
inductor pattern `L\d*`, and the connection phrasing `(\w+)と(\w+)を接続`
fails because を is not immediately followed by 接続). -/
theorem c8_counterexample :
    (parse_input exampleInput).components.map Component.kind ≠
      [Kind.battery, Kind.resistor, Kind.led] ∧
    (parse_input exampleInput).connections.length ≠ 1 := by decide

/-- C8 (amended): on the input 電池と抵抗とLEDを直列に接続, extraction
yields four components in kind-table order — resistor 抵抗, inductor `L`
(matched inside `LED`), battery 電池, led `LED` — and zero connections;
rendering then draws four icons, three adjacent connecting lines, and a
three-segment return path. -/
theorem c8_example_extraction :
    (parse_input exampleInput).components.map (fun c => (c.kind, c.name)) =
      [(Kind.resistor, "抵抗"), (Kind.inductor, "L"),
       (Kind.battery, "電池"), (Kind.led, "LED")] ∧
    (parse_input exampleInput).connections = [] ∧
    ((parse_input exampleInput).components.map _draw_component).length = 4 ∧
    (adjacentLines (parse_input exampleInput).components).length = 3 ∧
    (returnPath (parse_input exampleInput).components).length = 3 := by
  refine ⟨by decide, by decide, by decide, by decide, by decide⟩

/-- C9: if the input text contains exactly one occurrence of exactly one
kind's vocabulary (one `re.findall` match for that kind's pattern, none
for any other kind's), extraction yields exactly one component, of that
kind, whose label is the matched text. -/
theorem c9_single_occurrence (text : String) (k : Kind) (alts : List Alt)
    (m : List Char)
    (hmem : (k, alts) ∈ componentPatterns)
    (hone : findall alts text.data = [m])
    (hrest : ∀ p ∈ componentPatterns, p ≠ (k, alts) → findall p.2 text.data = []) :
    (parse_input text).components.map (fun c => (c.kind, c.name))
      = [(k, String.mk m)] := by
  have hex : extractComponents text = [Component.mk k (String.mk m) 0 0] :=
    extract_flatten_single componentPatterns text.data (k, alts) m
      (by decide) hmem hone hrest
  show (_calculate_positions
      (if (extractComponents text).isEmpty then fallbackComponents
       else extractComponents text)).map (fun c => (c.kind, c.name)) = _
  rw [hex]
  rfl

/-- Witness for C9: the input `"R1"` matches only the resistor pattern,
once, and extraction yields the single component (resistor, "R1"). -/
theorem c9_single_occurrence_witness :
    (parse_input "R1").components.map (fun c => (c.kind, c.name))
      = [(Kind.resistor, "R1")] :=
  c9_single_occurrence "R1" Kind.resistor
    [.lit "抵抗".data, .lit "レジスタ".data, .refDes 'R'] ['R', '1']
    (by decide) (by decide) (by decide)

/-- C10: each single bare designator letter, in either case, matches
exactly one kind's reference-designator pattern (which allows zero
digits, case-insensitively), so extraction yields exactly one component
of the corresponding kind labelled with that letter — the fallback
circuit is not substituted. -/
theorem c10_bare_designator_letters :
    ((parse_input "r").components.map (fun c => (c.kind, c.name)) = [(Kind.resistor, "r")]) ∧
    ((parse_input "R").components.map (fun c => (c.kind, c.name)) = [(Kind.resistor, "R")]) ∧
    ((parse_input "c").components.map (fun c => (c.kind, c.name)) = [(Kind.capacitor, "c")]) ∧
    ((parse_input "C").components.map (fun c => (c.kind, c.name)) = [(Kind.capacitor, "C")]) ∧
    ((parse_input "l").components.map (fun c => (c.kind, c.name)) = [(Kind.inductor, "l")]) ∧
    ((parse_input "L").components.map (fun c => (c.kind, c.name)) = [(Kind.inductor, "L")]) ∧
    ((parse_input "v").components.map (fun c => (c.kind, c.name)) = [(Kind.voltage_source, "v")]) ∧
    ((parse_input "V").components.map (fun c => (c.kind, c.name)) = [(Kind.voltage_source, "V")]) ∧
    ((parse_input "i").components.map (fun c => (c.kind, c.name)) = [(Kind.current_source, "i")]) ∧
    ((parse_input "I").components.map (fun c => (c.kind, c.name)) = [(Kind.current_source, "I")]) := by
  refine ⟨by decide, by decide, by decide, by decide, by decide,
    by decide, by decide, by decide, by decide, by decide⟩

end CircuitApp
